import Mathlib

/-!
Verification of the video-generation backend (`backend/server.py`).

Shallow embedding conventions:
* Python `float` values that the pipeline computes with (durations, zoom and
  pan parameters, `logo_opacity`) are modelled as rationals `ℚ`; all the
  properties below are about which values flow where, not about binary
  floating-point rounding.
* The external `ffmpeg` encoder is modelled by the command/filter-graph data
  the code hands to it (`KenBurnsCmd`, `FStream`, `OutputCmd`) plus Boolean
  oracles deciding whether each external invocation succeeds
  (`renderOk` for the per-image Ken Burns encode, `encodeOk` for the final
  encode).  `base64.b64decode`, which raises on malformed input, is modelled
  by the oracle `decodeOk`.
* The MongoDB document for one project is modelled by an
  `Option VideoProject` value; `generate_video` returns the post-call
  document together with the HTTP outcome.
-/

namespace VideoGen

/-- Embedding of the pydantic model `VideoProject` (server.py lines 45-56).
`images` holds the base64-encoded image strings; `status` is one of the
free-form strings "draft", "processing", "completed", "failed". -/
structure VideoProject where
  id : String
  name : String
  images : List String
  duration : Int
  music_file : Option String
  logo_file : Option String
  logo_opacity : ℚ
  resolution : String
  video_url : Option String
  status : String
deriving Repr, DecidableEq

/-- Python `int()` applied to a (modelled-as-rational) float: truncation
toward zero.  `Int.div` is T-division, and `num/den` is in lowest terms. -/
def pyInt (q : ℚ) : Int := q.num.tdiv (q.den : Int)

/-- The `zoompan` filter arguments of the Ken Burns encode
(server.py line 87). -/
structure ZoompanFilter where
  z : String
  d : Int
  x : String
  y : String
  s : String
deriving Repr, DecidableEq

/-- The full ffmpeg invocation built by `create_ken_burns_effect`
(server.py lines 83-91): input with loop/t, a scale filter, a zoompan
filter, and the output encode settings. -/
structure KenBurnsCmd where
  input_path : String
  loop : Nat
  t : ℚ
  scale_w : Nat
  scale_h : Nat
  zoompan : ZoompanFilter
  output_path : String
  vcodec : String
  pix_fmt : String
  r : Nat
deriving Repr, DecidableEq

/-- Embedding of the command construction in `create_ken_burns_effect`
(server.py lines 67-91).  `width`/`height` are the dimensions read from
`Image.open`.  The local strings `zoom_filter` and `pan_filter`
(lines 79-80) are computed from the zoom/pan parameters exactly as in the
source but are never used by the ffmpeg chain, which hard-codes the
`zoompan` expressions; they are kept here, unused, to mirror the source. -/
def create_ken_burns_effect_cmd (image_path : String) (output_path : String)
    (duration : ℚ) (zoom_start zoom_end pan_x pan_y : ℚ)
    (width height : Int) : KenBurnsCmd :=
  let target_width : Nat := 1080
  let target_height : Nat := 1920
  let zw := pyInt ((width : ℚ) * zoom_start)
  let zh := pyInt ((height : ℚ) * zoom_start)
  let zoom_filter := s!"scale={zw}:{zh}"
  let pan_filter := s!"crop={target_width}:{target_height}:{pan_x}:{pan_y}"
  { input_path := image_path
    loop := 1
    t := duration
    scale_w := target_width
    scale_h := target_height
    zoompan :=
      { z := "min(zoom+0.0015,1.5)"
        d := pyInt (duration * 30)
        x := "iw/2-(iw/zoom/2)"
        y := "ih/2-(ih/zoom/2)"
        s := s!"{target_width}x{target_height}" }
    output_path := output_path
    vcodec := "libx264"
    pix_fmt := "yuv420p"
    r := 30 }

/-- Per-image clip duration, server.py line 114:
`clip_duration = project.duration / len(project.images)` (true division). -/
def clip_duration (duration : Int) (n : Nat) : ℚ := (duration : ℚ) / (n : ℚ)

/-- Per-image zoom start, server.py line 117: `1.0 + (i * 0.1)`. -/
def zoom_start (i : Nat) : ℚ := 1 + (i : ℚ) * (1 / 10)

/-- Per-image zoom end, server.py line 118: `1.2 + (i * 0.1)`. -/
def zoom_end (i : Nat) : ℚ := 12 / 10 + (i : ℚ) * (1 / 10)

/-- Per-image horizontal pan, server.py line 119: `(i % 2) * 100`. -/
def pan_x (i : Nat) : ℚ := ((i % 2) * 100 : ℕ)

/-- Per-image vertical pan, server.py line 120: `(i % 3) * 50`. -/
def pan_y (i : Nat) : ℚ := ((i % 3) * 50 : ℕ)

/-- Path of the decoded image written in loop iteration `i`,
server.py line 107. -/
def image_path (temp_dir : String) (i : Nat) : String :=
  temp_dir ++ "/image_" ++ toString i ++ ".jpg"

/-- Path of the clip rendered in loop iteration `i`, server.py line 113. -/
def clip_path (temp_dir : String) (i : Nat) : String :=
  temp_dir ++ "/clip_" ++ toString i ++ ".mp4"

/-- The per-image loop of `create_video_from_images`
(server.py lines 104-123), carrying the running image index.
Each iteration first base64-decodes the image — a failure there raises out
of the whole function (modelled by `Except.error`) — and then calls
`create_ken_burns_effect`, whose Boolean result decides whether
`clip_path i` is appended to `video_clips` (a `False` is skipped, not
fatal).  The zoom/pan parameters computed at lines 117-120
(`zoom_start i` etc.) are passed to that call; since they do not influence
the constructed command (see `create_ken_burns_effect_cmd`), the call's
success is modelled by the oracle `renderOk` applied to the index. -/
def renderLoop (decodeOk : String → Bool) (renderOk : Nat → Bool)
    (temp_dir : String) : List String → Nat → Except String (List String)
  | [], _ => .ok []
  | image_b64 :: rest, i =>
    if decodeOk image_b64 then
      match renderLoop decodeOk renderOk temp_dir rest (i + 1) with
      | .ok clips =>
          .ok (if renderOk i then clip_path temp_dir i :: clips else clips)
      | .error e => .error e
    else .error "binascii.Error: invalid base64-encoded string"

/-- The ffmpeg filter-graph streams built by `create_video_from_images`:
clip inputs, the `xfade` chain (line 138) and the logo `overlay`
(line 148). -/
inductive FStream where
  | input (path : String)
  | xfade (a : FStream) (b : FStream) (transition : String) (duration : ℚ)
  | overlay (base : FStream) (top : FStream) (x : String) (y : String) (ev : String)
deriving Repr, DecidableEq

/-- Clip concatenation with fade transitions (server.py lines 129-138):
the first clip is the seed; every further clip is joined with
`xfade(transition='fade', duration=0.5)`, folding left-to-right.
The `[]` case is unreachable: the caller raises "No video clips created"
before composing when the clip list is empty. -/
def build_stream : List String → FStream
  | [] => FStream.input ""
  | first :: rest =>
      rest.foldl
        (fun stream clip =>
          FStream.xfade stream (FStream.input clip) "fade" (1 / 2))
        (FStream.input first)

/-- Logo stage (server.py lines 141-148): when `logo_file` is present its
base64 payload is decoded (a failure aborts the job) and the logo is
overlaid at `x='W-w-20'`, `y='H-h-20'` with `eval='init'`; otherwise the
stream passes through. -/
def logo_stage (logo_file : Option String) (temp_dir : String)
    (decodeOk : String → Bool) (stream : FStream) : Option FStream :=
  match logo_file with
  | some logo_b64 =>
      if decodeOk logo_b64 then
        some (FStream.overlay stream (FStream.input (temp_dir ++ "/logo.png"))
          "W-w-20" "H-h-20" "init")
      else none
  | none => some stream

/-- The final ffmpeg output node (server.py lines 150-160): the video
stream, an optional audio input (the decoded music file), and the encode
settings of the branch taken. -/
structure OutputCmd where
  video : FStream
  audio : Option String
  out_path : String
  vcodec : String
  acodec : Option String
  pix_fmt : String
deriving Repr, DecidableEq

/-- Music / output stage (server.py lines 150-160): with music present the
payload is decoded (failure aborts) and the output muxes the audio with
`acodec='aac'`; without music the output is video-only.  Both branches use
`vcodec='libx264'` and `pix_fmt='yuv420p'`. -/
def output_stage (music_file : Option String) (output_path temp_dir : String)
    (decodeOk : String → Bool) (stream : FStream) : Option OutputCmd :=
  match music_file with
  | some music_b64 =>
      if decodeOk music_b64 then
        some { video := stream
               audio := some (temp_dir ++ "/music.mp3")
               out_path := output_path
               vcodec := "libx264"
               acodec := some "aac"
               pix_fmt := "yuv420p" }
      else none
  | none =>
      some { video := stream
             audio := none
             out_path := output_path
             vcodec := "libx264"
             acodec := none
             pix_fmt := "yuv420p" }

/-- Observable outcome of one `create_video_from_images` call:
the Boolean it returns, whether `shutil.rmtree(temp_dir)` ran, the
`video_clips` list produced by the per-image loop, the composited stream
(present when control reached the concatenation at lines 129-138) and the
final ffmpeg command (present when control reached `ffmpeg.run`). -/
structure PipelineTrace where
  success : Bool
  temp_dir_removed : Bool
  clips : List String
  composed : Option FStream
  final_cmd : Option OutputCmd
deriving Repr, DecidableEq

/-- Embedding of `create_video_from_images` (server.py lines 97-171).
The whole body runs inside `try:`; any raise is caught at line 169 and
turns into `return False` — without removing `temp_dir`, which is removed
only on the success path right before `return True` (lines 165-167).
Exit paths, in source order: a base64 decode failure in the loop; the
`raise Exception("No video clips created")` when no clip rendered; a logo
decode failure; a music decode failure; the final `ffmpeg.run` failing;
and the single success path. -/
def create_video_from_images (project : VideoProject) (output_path : String)
    (temp_dir : String) (decodeOk : String → Bool) (renderOk : Nat → Bool)
    (encodeOk : OutputCmd → Bool) : PipelineTrace :=
  match renderLoop decodeOk renderOk temp_dir project.images 0 with
  | .error _ => ⟨false, false, [], none, none⟩
  | .ok video_clips =>
    if video_clips.isEmpty then ⟨false, false, video_clips, none, none⟩
    else
      let stream := build_stream video_clips
      match logo_stage project.logo_file temp_dir decodeOk stream with
      | none => ⟨false, false, video_clips, some stream, none⟩
      | some stream2 =>
        match output_stage project.music_file output_path temp_dir decodeOk
            stream2 with
        | none => ⟨false, false, video_clips, some stream, none⟩
        | some cmd =>
          if encodeOk cmd then ⟨true, true, video_clips, some stream, some cmd⟩
          else ⟨false, false, video_clips, some stream, some cmd⟩

/-- The fixed output directory (server.py line 38), relative to the
backend root. -/
def OUTPUT_DIR : String := "outputs"

/-- Output file name (server.py line 291):
`f"{project_id}_{project.resolution}.mp4"`. -/
def output_filename (project_id resolution : String) : String :=
  project_id ++ "_" ++ resolution ++ ".mp4"

/-- Observable outcome of one `generate_video` call: the project document
after the call, the HTTP error status raised (if any), the video URL
returned on success, and the output path handed to the pipeline (if the
call got that far). -/
structure GenerateOutcome where
  project : Option VideoProject
  http_error : Option Nat
  response_video_url : Option String
  output_path : Option String
deriving Repr, DecidableEq

/-- Embedding of the `generate_video` route handler
(server.py lines 272-319).  `stored` is the document found for
`project_id` (`none` → 404).  An empty image list raises 400 before any
status update.  Otherwise status is set to `processing`, the output path
is computed, and the pipeline runs; on `True` the document gets
`video_url` and status `completed`; on `False` the handler raises
HTTPException(500), which its own `except` catches, setting status
`failed` (idempotently) before re-raising a 500. -/
def generate_video (project_id : String) (stored : Option VideoProject)
    (temp_dir : String) (decodeOk : String → Bool) (renderOk : Nat → Bool)
    (encodeOk : OutputCmd → Bool) : GenerateOutcome :=
  match stored with
  | none => ⟨none, some 404, none, none⟩
  | some project =>
    if project.images.isEmpty then ⟨some project, some 400, none, none⟩
    else
      let processing := { project with status := "processing" }
      let fname := output_filename project_id project.resolution
      let out_path := OUTPUT_DIR ++ "/" ++ fname
      let trace :=
        create_video_from_images project out_path temp_dir decodeOk renderOk
          encodeOk
      if trace.success then
        ⟨some { processing with
                  video_url := some ("/api/videos/" ++ fname)
                  status := "completed" },
         none, some ("/api/videos/" ++ fname), some out_path⟩
      else
        ⟨some { processing with status := "failed" }, some 500, none,
         some out_path⟩

/-- The clip paths of the images whose Ken Burns render succeeded, in
source index order — the characterization target for the per-image loop. -/
def succeeded_clips (temp_dir : String) (renderOk : Nat → Bool) (n : Nat) :
    List String :=
  ((List.range n).filter renderOk).map (clip_path temp_dir)

/-- Number of `xfade` nodes in a filter-graph stream. -/
def xfade_count : FStream → Nat
  | .input _ => 0
  | .xfade a b _ _ => xfade_count a + xfade_count b + 1
  | .overlay a b _ _ _ => xfade_count a + xfade_count b

/-- A concrete three-image project (with a logo, no music) used to
instantiate the theorems below on closed inputs. -/
def sampleProject : VideoProject :=
  { id := "p1"
    name := "demo"
    images := ["aGVsbG8=", "d29ybGQ=", "YWJj"]
    duration := 30
    music_file := none
    logo_file := some "bG9nbw=="
    logo_opacity := 4 / 5
    resolution := "1080p"
    video_url := none
    status := "draft" }

/-- A concrete project with an empty image list. -/
def emptyProject : VideoProject :=
  { id := "p0"
    name := "empty"
    images := []
    duration := 30
    music_file := none
    logo_file := none
    logo_opacity := 4 / 5
    resolution := "1080p"
    video_url := none
    status := "draft" }

/-! Helper lemmas shared by the claim theorems. -/

/-- When every image decodes, the per-image loop returns (without raising)
exactly the clip paths of the indices whose render succeeded, in index
order, offset by the starting index `k`. -/
theorem renderLoop_eq_ok (decodeOk : String → Bool) (renderOk : Nat → Bool)
    (temp_dir : String) (images : List String) :
    ∀ k : Nat, (∀ img ∈ images, decodeOk img = true) →
      renderLoop decodeOk renderOk temp_dir images k =
        Except.ok ((List.range images.length).filterMap
          (fun j => if renderOk (k + j) = true then
              some (clip_path temp_dir (k + j)) else none)) := by
  induction images with
  | nil => intro k _; rfl
  | cons img rest ih =>
    intro k h
    have hd : decodeOk img = true := h img (List.mem_cons_self _ _)
    have hrest := ih (k + 1) (fun x hx => h x (List.mem_cons_of_mem _ hx))
    have harith : ∀ j : Nat, k + 1 + j = k + (j + 1) := by omega
    simp only [renderLoop, hd, if_true, hrest, List.length_cons,
      List.range_succ_eq_map, List.filterMap_cons, List.filterMap_map,
      Function.comp, Nat.succ_eq_add_one, harith, Nat.add_zero]
    cases hrk : renderOk k <;>
      simp [hrk, Function.comp_def, Nat.succ_eq_add_one, harith]

/-- Filtering with a Boolean predicate inside `filterMap` is mapping over
the filtered list. -/
theorem filterMap_if_eq_map_filter (p : Nat → Bool) (f : Nat → String)
    (l : List Nat) :
    l.filterMap (fun j => if p j = true then some (f j) else none) =
      (l.filter p).map f := by
  induction l with
  | nil => rfl
  | cons a t ih =>
    cases hp : p a <;>
      simp [List.filterMap_cons, List.filter_cons, hp, ih]

/-- A Boolean filter strictly shrinks a list exactly when some element
fails the predicate. -/
theorem length_filter_lt_iff (p : Nat → Bool) (l : List Nat) :
    (l.filter p).length < l.length ↔ ∃ x ∈ l, p x = false := by
  induction l with
  | nil => simp
  | cons a t ih =>
    cases hp : p a with
    | true =>
      simpa [List.filter_cons, hp, Nat.succ_lt_succ_iff] using ih
    | false =>
      simp only [List.filter_cons, hp, if_false, List.length_cons,
        Bool.false_eq_true]
      constructor
      · intro _
        exact ⟨a, List.mem_cons_self a t, hp⟩
      · intro _
        exact Nat.lt_succ_of_le (List.length_filter_le _ _)

/-- Counting `xfade` nodes through the left fold that chains clips. -/
theorem xfade_count_foldl (l : List String) :
    ∀ s : FStream,
      xfade_count
        (l.foldl
          (fun stream clip =>
            FStream.xfade stream (FStream.input clip) "fade" (1 / 2)) s)
        = xfade_count s + l.length := by
  induction l with
  | nil => intro s; simp
  | cons a t ih =>
    intro s
    simp only [List.foldl_cons, ih, xfade_count, List.length_cons]
    omega

/-! Claim theorems. -/

/-- Claim C1: for every project with a non-empty image list, after a
`generate` call returns or throws, the stored project's status is a
terminal state — `completed` on the success branch, `failed` on both the
pipeline-returned-false branch and the exception branch — never
`processing`. -/
theorem C1_generate_terminal_status (project_id temp_dir : String)
    (p : VideoProject) (decodeOk : String → Bool) (renderOk : Nat → Bool)
    (encodeOk : OutputCmd → Bool) (h : p.images ≠ []) :
    ∃ q, (generate_video project_id (some p) temp_dir decodeOk renderOk
            encodeOk).project = some q
      ∧ (q.status = "completed" ∨ q.status = "failed") := by
  have he : p.images.isEmpty = false := by
    cases hi : p.images with
    | nil => exact absurd hi h
    | cons a t => rfl
  simp only [generate_video, he, Bool.false_eq_true, if_false]
  split
  · exact ⟨_, rfl, Or.inl rfl⟩
  · exact ⟨_, rfl, Or.inr rfl⟩

/-- Witness for C1 at a concrete three-image project. -/
theorem C1_generate_terminal_status_witness :
    ∃ q, (generate_video "p1" (some sampleProject) "/tmp/job"
            (fun _ => true) (fun _ => true) (fun _ => true)).project = some q
      ∧ (q.status = "completed" ∨ q.status = "failed") :=
  C1_generate_terminal_status "p1" "/tmp/job" sampleProject _ _ _ (by decide)

/-- Claim C2: for a project with an empty image list, `generate` raises a
400 validation error before the status is ever set to `processing`; the
stored document is left unchanged and no pipeline stage runs (no output
path is even computed). -/
theorem C2_empty_images_rejected (project_id temp_dir : String)
    (p : VideoProject) (decodeOk : String → Bool) (renderOk : Nat → Bool)
    (encodeOk : OutputCmd → Bool) (h : p.images = []) :
    generate_video project_id (some p) temp_dir decodeOk renderOk encodeOk =
      ⟨some p, some 400, none, none⟩ := by
  simp [generate_video, h]

/-- Witness for C2 at a concrete empty-image project. -/
theorem C2_empty_images_rejected_witness :
    generate_video "p0" (some emptyProject) "/tmp/job" (fun _ => true)
      (fun _ => true) (fun _ => true) =
      ⟨some emptyProject, some 400, none, none⟩ :=
  C2_empty_images_rejected "p0" "/tmp/job" emptyProject _ _ _ rfl

/-- Claim C4 (code bug): the spec's guarantee that the job temp directory
is deleted on every exit path fails on the code: when the final encode
fails, `create_video_from_images` returns `False` through its `except`
handler without running `shutil.rmtree` — cleanup happens only on the
success path (third conjunct). -/
theorem C4_temp_dir_leak_on_failure :
    (create_video_from_images sampleProject "outputs/p1_1080p.mp4" "/tmp/job"
        (fun _ => true) (fun _ => true) (fun _ => false)).success = false
    ∧ (create_video_from_images sampleProject "outputs/p1_1080p.mp4" "/tmp/job"
        (fun _ => true) (fun _ => true) (fun _ => false)).temp_dir_removed
        = false
    ∧ (create_video_from_images sampleProject "outputs/p1_1080p.mp4" "/tmp/job"
        (fun _ => true) (fun _ => true) (fun _ => true)).temp_dir_removed
        = true := by
  exact ⟨rfl, rfl, rfl⟩

/-- Claim C7: the output file path is the pure function
`OUTPUT_DIR/{projectId}_{resolution}.mp4` of the project id and
resolution: two `generate` calls with the same id and resolution — under
any temp dirs, oracles, or other project fields — target the identical
path, so the later render overwrites the earlier one. -/
theorem C7_output_path_pure (project_id temp_dir1 temp_dir2 : String)
    (p1 p2 : VideoProject) (dOk1 dOk2 : String → Bool)
    (rOk1 rOk2 : Nat → Bool) (eOk1 eOk2 : OutputCmd → Bool)
    (hres : p1.resolution = p2.resolution)
    (h1 : p1.images ≠ []) (h2 : p2.images ≠ []) :
    (generate_video project_id (some p1) temp_dir1 dOk1 rOk1 eOk1).output_path
      = (generate_video project_id (some p2) temp_dir2 dOk2 rOk2
          eOk2).output_path
    ∧ (generate_video project_id (some p1) temp_dir1 dOk1 rOk1
          eOk1).output_path
      = some (OUTPUT_DIR ++ "/"
          ++ (project_id ++ "_" ++ p1.resolution ++ ".mp4")) := by
  have he1 : p1.images.isEmpty = false := by
    cases hi : p1.images with
    | nil => exact absurd hi h1
    | cons a t => rfl
  have he2 : p2.images.isEmpty = false := by
    cases hi : p2.images with
    | nil => exact absurd hi h2
    | cons a t => rfl
  constructor
  · simp only [generate_video, he1, he2, Bool.false_eq_true, if_false,
      apply_ite GenerateOutcome.output_path, ite_self, hres,
      output_filename]
  · simp only [generate_video, he1, Bool.false_eq_true, if_false,
      apply_ite GenerateOutcome.output_path, ite_self, output_filename]

/-- Witness for C7: the same project with two different temp dirs and
oracles targets the same concrete path. -/
theorem C7_output_path_pure_witness :
    ((generate_video "p1" (some sampleProject) "/tmp/a" (fun _ => true)
        (fun _ => true) (fun _ => true)).output_path
      = (generate_video "p1" (some sampleProject) "/tmp/b" (fun _ => false)
          (fun _ => false) (fun _ => false)).output_path)
    ∧ (generate_video "p1" (some sampleProject) "/tmp/a" (fun _ => true)
        (fun _ => true) (fun _ => true)).output_path
      = some (OUTPUT_DIR ++ "/"
          ++ ("p1" ++ "_" ++ sampleProject.resolution ++ ".mp4")) :=
  C7_output_path_pure "p1" "/tmp/a" "/tmp/b" sampleProject sampleProject
    _ _ _ _ _ _ rfl (by decide) (by decide)

/-- Claim C8 (code bug): the loop does compute index-varying pan/zoom
parameters (first and second inequality conjuncts), but
`create_ken_burns_effect` never feeds them into the ffmpeg command — the
zoompan expressions are fixed strings — so the commands built for image 0
and image 1 of a multi-image project are identical and every clip repeats
the same motion, refuting the claimed visual variation. -/
theorem C8_motion_identical_across_indices :
    create_ken_burns_effect_cmd "img.jpg" "clip.mp4" 15 (zoom_start 0)
        (zoom_end 0) (pan_x 0) (pan_y 0) 800 600
      = create_ken_burns_effect_cmd "img.jpg" "clip.mp4" 15 (zoom_start 1)
        (zoom_end 1) (pan_x 1) (pan_y 1) 800 600
    ∧ zoom_start 0 ≠ zoom_start 1
    ∧ pan_x 0 ≠ pan_x 1 :=
  ⟨rfl, by norm_num [zoom_start], by norm_num [pan_x]⟩

/-- Claim C10: the Ken Burns encode command is independent of the
`zoom_start`, `zoom_end`, `pan_x`, `pan_y` arguments: two calls differing
only in those four parameters build the identical ffmpeg filter chain and
command, because the zoompan filter uses fixed expressions and the strings
computed from the parameters are never used. -/
theorem C10_kenburns_independent_of_params (image_path output_path : String)
    (duration : ℚ) (zs1 ze1 px1 py1 zs2 ze2 px2 py2 : ℚ)
    (width height : Int) :
    create_ken_burns_effect_cmd image_path output_path duration
        zs1 ze1 px1 py1 width height
      = create_ken_burns_effect_cmd image_path output_path duration
        zs2 ze2 px2 py2 width height := rfl

/-- Claim C5: each image's clip is assigned the duration
`project.duration / len(project.images)` (equal split), so the per-clip
durations of a non-empty image list sum exactly to `project.duration`
(modelling the float division as exact rational division). -/
theorem C5_equal_duration_split (p : VideoProject) (h : p.images ≠ []) :
    clip_duration p.duration p.images.length =
      (p.duration : ℚ) / (p.images.length : ℚ)
    ∧ (p.images.map fun _ =>
        clip_duration p.duration p.images.length).sum = (p.duration : ℚ) := by
  refine ⟨rfl, ?_⟩
  have hn : (p.images.length : ℚ) ≠ 0 :=
    Nat.cast_ne_zero.mpr (List.length_pos.mpr h).ne'
  rw [List.map_const', List.sum_replicate, nsmul_eq_mul, clip_duration,
    mul_comm, div_mul_cancel₀ _ hn]

/-- Witness for C5 at a concrete three-image, 30-second project. -/
theorem C5_equal_duration_split_witness :
    clip_duration sampleProject.duration sampleProject.images.length =
      (sampleProject.duration : ℚ) / (sampleProject.images.length : ℚ)
    ∧ (sampleProject.images.map fun _ =>
        clip_duration sampleProject.duration sampleProject.images.length).sum
      = (sampleProject.duration : ℚ) :=
  C5_equal_duration_split sampleProject (by decide)

/-- Claim C6: the compositor passes a single clip through unchanged with
no transition, and for more clips chains an `xfade` with transition
`fade` and duration 0.5 left-to-right, one transition per adjacent pair
(so a nonempty list of n clips yields n-1 xfade nodes). -/
theorem C6_compositor_xfade_chain (c : String) (clips : List String) :
    build_stream [c] = FStream.input c
    ∧ (clips ≠ [] →
        build_stream (clips ++ [c]) =
          FStream.xfade (build_stream clips) (FStream.input c) "fade" (1 / 2))
    ∧ (clips ≠ [] →
        xfade_count (build_stream clips) = clips.length - 1) := by
  refine ⟨rfl, ?_, ?_⟩
  · intro h
    cases clips with
    | nil => exact absurd rfl h
    | cons a t => simp [build_stream, List.foldl_append]
  · intro h
    cases clips with
    | nil => exact absurd rfl h
    | cons a t =>
      have hc := xfade_count_foldl t (FStream.input a)
      simpa [build_stream, xfade_count] using hc

/-- Witness for C6 on a concrete three-clip list. -/
theorem C6_compositor_xfade_chain_witness :
    build_stream ["c2.mp4"] = FStream.input "c2.mp4"
    ∧ build_stream (["c0.mp4", "c1.mp4"] ++ ["c2.mp4"]) =
        FStream.xfade (build_stream ["c0.mp4", "c1.mp4"])
          (FStream.input "c2.mp4") "fade" (1 / 2)
    ∧ xfade_count (build_stream ["c0.mp4", "c1.mp4"]) =
        (["c0.mp4", "c1.mp4"] : List String).length - 1 :=
  ⟨(C6_compositor_xfade_chain "c2.mp4" ["c0.mp4", "c1.mp4"]).1,
   (C6_compositor_xfade_chain "c2.mp4" ["c0.mp4", "c1.mp4"]).2.1
     (List.cons_ne_nil _ _),
   (C6_compositor_xfade_chain "c2.mp4" ["c0.mp4", "c1.mp4"]).2.2
     (List.cons_ne_nil _ _)⟩

/-- Claim C9: a present logo is overlaid at the fixed 20px bottom-right
offset (`x='W-w-20'`, `y='H-h-20'`, `eval='init'`, i.e. for the whole
video), and the pipeline's behaviour — in particular the encode command it
builds — is identical for two projects differing only in `logo_opacity`:
the opacity setting is never read by the pipeline. -/
theorem C9_logo_fixed_offset_opacity_ignored (p : VideoProject) (v : ℚ)
    (output_path temp_dir : String) (decodeOk : String → Bool)
    (renderOk : Nat → Bool) (encodeOk : OutputCmd → Bool) :
    (∀ (l : String) (s : FStream), decodeOk l = true →
        logo_stage (some l) temp_dir decodeOk s =
          some (FStream.overlay s
            (FStream.input (temp_dir ++ "/logo.png")) "W-w-20" "H-h-20"
            "init"))
    ∧ create_video_from_images { p with logo_opacity := v } output_path
        temp_dir decodeOk renderOk encodeOk =
      create_video_from_images p output_path temp_dir decodeOk renderOk
        encodeOk := by
  constructor
  · intro l s hl
    simp [logo_stage, hl]
  · rfl

/-- Witness for C9: concrete logo overlay and a concrete opacity change
that leaves the whole pipeline trace unchanged. -/
theorem C9_logo_fixed_offset_opacity_ignored_witness :
    logo_stage (some "bG9nbw==") "/tmp/job" (fun _ => true)
        (FStream.input "c")
      = some (FStream.overlay (FStream.input "c")
          (FStream.input ("/tmp/job" ++ "/logo.png")) "W-w-20" "H-h-20"
          "init")
    ∧ create_video_from_images { sampleProject with logo_opacity := 1 / 10 }
        "o.mp4" "/tmp/job" (fun _ => true) (fun _ => true) (fun _ => true)
      = create_video_from_images sampleProject "o.mp4" "/tmp/job"
        (fun _ => true) (fun _ => true) (fun _ => true) := by
  have h := C9_logo_fixed_offset_opacity_ignored sampleProject (1 / 10)
    "o.mp4" "/tmp/job" (fun _ => true) (fun _ => true) (fun _ => true)
  exact ⟨h.1 "bG9nbw==" (FStream.input "c") rfl, h.2⟩

/-- Claim C3: when every image decodes, the clip list handed to the
compositor is exactly the clips of the images whose render succeeded, in
source index order; its length is at most the number of images and
strictly less exactly when some render failed; with zero successful clips
the job fails (the "No video clips created" raise), and with at least one
it proceeds to composition of exactly those clips. -/
theorem C3_failed_clips_skipped (p : VideoProject)
    (output_path temp_dir : String) (decodeOk : String → Bool)
    (renderOk : Nat → Bool) (encodeOk : OutputCmd → Bool)
    (hdec : ∀ img ∈ p.images, decodeOk img = true) :
    (create_video_from_images p output_path temp_dir decodeOk renderOk
        encodeOk).clips
      = succeeded_clips temp_dir renderOk p.images.length
    ∧ (succeeded_clips temp_dir renderOk p.images.length).length
        ≤ p.images.length
    ∧ ((succeeded_clips temp_dir renderOk p.images.length).length
          < p.images.length
        ↔ ∃ i, i < p.images.length ∧ renderOk i = false)
    ∧ (succeeded_clips temp_dir renderOk p.images.length = [] →
        (create_video_from_images p output_path temp_dir decodeOk renderOk
          encodeOk).success = false)
    ∧ (succeeded_clips temp_dir renderOk p.images.length ≠ [] →
        (create_video_from_images p output_path temp_dir decodeOk renderOk
          encodeOk).composed
          = some (build_stream
              (succeeded_clips temp_dir renderOk p.images.length))) := by
  have hLF : renderLoop decodeOk renderOk temp_dir p.images 0 =
      Except.ok (succeeded_clips temp_dir renderOk p.images.length) := by
    rw [renderLoop_eq_ok decodeOk renderOk temp_dir p.images 0 hdec]
    simp only [Nat.zero_add]
    rw [filterMap_if_eq_map_filter]
    rfl
  have hlen : (succeeded_clips temp_dir renderOk p.images.length).length
      = ((List.range p.images.length).filter renderOk).length := by
    simp [succeeded_clips]
  refine ⟨?_, ?_, ?_, ?_, ?_⟩
  · by_cases hL : succeeded_clips temp_dir renderOk p.images.length = []
    · simp [create_video_from_images, hLF, hL]
    · have hE : (succeeded_clips temp_dir renderOk
          p.images.length).isEmpty = false := by
        simpa [List.isEmpty_iff] using hL
      simp only [create_video_from_images, hLF, hE, Bool.false_eq_true,
        if_false]
      cases hlg : logo_stage p.logo_file temp_dir decodeOk
          (build_stream (succeeded_clips temp_dir renderOk
            p.images.length)) with
      | none => simp [hlg]
      | some s2 =>
        cases hout : output_stage p.music_file output_path temp_dir decodeOk
            s2 with
        | none => simp [hout]
        | some cmd =>
          by_cases henc : encodeOk cmd <;> simp [hout, henc]
  · calc (succeeded_clips temp_dir renderOk p.images.length).length
        = ((List.range p.images.length).filter renderOk).length := hlen
      _ ≤ (List.range p.images.length).length := List.length_filter_le _ _
      _ = p.images.length := List.length_range _
  · rw [hlen]
    have := length_filter_lt_iff renderOk (List.range p.images.length)
    simpa [List.mem_range, List.length_range] using this
  · intro hL
    simp [create_video_from_images, hLF, hL]
  · intro hL
    have hE : (succeeded_clips temp_dir renderOk
        p.images.length).isEmpty = false := by
      simpa [List.isEmpty_iff] using hL
    simp only [create_video_from_images, hLF, hE, Bool.false_eq_true,
      if_false]
    cases hlg : logo_stage p.logo_file temp_dir decodeOk
        (build_stream (succeeded_clips temp_dir renderOk
          p.images.length)) with
    | none => simp [hlg]
    | some s2 =>
      cases hout : output_stage p.music_file output_path temp_dir decodeOk
          s2 with
      | none => simp [hout]
      | some cmd =>
        by_cases henc : encodeOk cmd <;> simp [hout, henc]

/-- Witness for C3: with the render of image 1 failing, exactly clips 0
and 2 reach the compositor. -/
theorem C3_failed_clips_skipped_witness :
    (create_video_from_images sampleProject "o.mp4" "/tmp/job"
        (fun _ => true) (fun i => !(i == 1)) (fun _ => true)).clips
      = succeeded_clips "/tmp/job" (fun i => !(i == 1))
          sampleProject.images.length
    ∧ succeeded_clips "/tmp/job" (fun i => !(i == 1))
        sampleProject.images.length
      = ["/tmp/job/clip_0.mp4", "/tmp/job/clip_2.mp4"] := by
  have h := C3_failed_clips_skipped sampleProject "o.mp4" "/tmp/job"
    (fun _ => true) (fun i => !(i == 1)) (fun _ => true) (by decide)
  exact ⟨h.1, by decide⟩

end VideoGen
